import Mathlib

/-!
Verification development for the AWR2RPi_readData_py acquisition pipeline.

The Lean definitions below are a shallow embedding of the Python sources:
  - hw_comms_utils.py   (sync-pattern scanner read_frame_header)
  - math_utils.py       (pow2_roundup)
  - python_code/parsing_utils.py (parse_cfg, read_to_struct, get_byte_length_from_struct)
  - main.py             (DataLogger producer/consumer loop)

Modelling conventions:
  - A serial port is modelled as the finite list of bytes it will deliver
    before its read timeout: a read takes min(n, available) bytes, and a
    read on an exhausted stream returns zero bytes (the timeout case).
  - Python ints are Int, exact as in Python 3.
  - Python floats are modelled exactly as unnormalized rationals (a pair of
    Int numerator / denominator).  No claim below depends on IEEE rounding
    or on the numeric value of a float; only on the dynamic type of a value
    (int versus float) and on zero tests guarding division.
  - Python exceptions are modelled with Except: IndexError, ValueError,
    KeyError, ZeroDivisionError and AttributeError are the ones the parser
    can raise.
  - Python while loops are translated with an explicit fuel argument that
    bounds the iteration count, making the recursion structural (and hence
    kernel-computable).  Each wrapper instantiates the fuel with a bound
    that the loop can never exhaust; the bound is noted at the wrapper.
-/

/-! ### math_utils.py -/

/-- Fueled loop body of pow2_roundup: y = 1; while x > y: y *= 2; return y.
One doubling per fuel unit; fuel exhaustion returns the current y (never
reached for the fuel used by pow2_roundup, since y doubles past x within
x.toNat steps). -/
def pow2Go : Nat → Int → Nat → Nat
  | 0, _, y => y
  | fuel + 1, x, y => if (y : Int) < x then pow2Go fuel x (y * 2) else y

/-- pow2_roundup from math_utils.py: smallest power of two at least x,
computed by doubling y from 1.  The result is a positive integer, hence Nat. -/
def pow2_roundup (x : Int) : Nat := pow2Go (x.toNat + 1) x 1

/-- Fueled bit_length of a nonnegative integer: Python int.bit_length, the
number of binary digits of the absolute value ((0).bit_length() == 0).
One halving per fuel unit; fuel n suffices for input n. -/
def bitLenAux : Nat → Nat → Nat
  | 0, _ => 0
  | _ + 1, 0 => 0
  | fuel + 1, n + 1 => bitLenAux fuel ((n + 1) / 2) + 1

/-- Python int.bit_length for a natural number. -/
def bitLen (n : Nat) : Nat := bitLenAux n n

/-- The inline next-power-of-two used at parsing_utils.py lines 150-151:
1 << (x - 1).bit_length().  Python takes bit_length of the absolute value
for a negative int, and 1 << k equals 2 ^ k. -/
def inlinePow2 (x : Int) : Int := 2 ^ bitLen (x - 1).natAbs

/-- Population count: bin(n).count(hex digit one) for a natural number,
fueled halving recursion (fuel n suffices for input n). -/
def popcountAux : Nat → Nat → Nat
  | 0, _ => 0
  | _ + 1, 0 => 0
  | fuel + 1, n + 1 => (n + 1) % 2 + popcountAux fuel ((n + 1) / 2)

/-- Number of set bits of n; parsing_utils.py computes it as
bin(v).count(the digit 1), which for a negative v counts bits of abs(v). -/
def popcount (n : Nat) : Nat := popcountAux n n

/-! ### hw_comms_utils.py : read_frame_header -/

/-- The 8-byte frame sync pattern from hw_comms_utils.py line 5. -/
def SYNC_PATTERN : List Nat := [2, 1, 4, 3, 6, 5, 8, 7]

/-- Loop body of read_frame_header.  The stream is the list of bytes the
port will still deliver; acc is out_of_sync_bytes.  Result mirrors the
Python triple (rx_header, byte_count, out_of_sync_bytes).  Each iteration
consumes at least the one byte read at the top of the loop, so stream
length + 1 bounds the iteration count and is the fuel used by
read_frame_header; fuel exhaustion returns the timeout result. -/
def readFrameHeaderGo : Nat → List Nat → Nat → Nat → Option (List Nat) × Nat × Nat
  | 0, _, _, acc => (none, 0, acc)
  | _ + 1, [], _, acc => (none, 0, acc)
  | fuel + 1, b :: rest, len, acc =>
    if b = 2 then
      -- remaining_pattern = port.read(7)
      if (rest.take 7).length < 7 then
        -- short read: out_of_sync_bytes += 1 + len(remaining_pattern); continue
        readFrameHeaderGo fuel (rest.drop 7) len (acc + 1 + (rest.take 7).length)
      else
        if b :: rest.take 7 = SYNC_PATTERN then
          -- header_rest = port.read(len - 8)
          if ((rest.drop 7).take (len - 8)).length = len - 8 then
            (some ((b :: rest.take 7) ++ (rest.drop 7).take (len - 8)), len, acc)
          else
            -- incomplete header: out_of_sync_bytes += 8 + len(header_rest); continue
            readFrameHeaderGo fuel ((rest.drop 7).drop (len - 8)) len
              (acc + 8 + ((rest.drop 7).take (len - 8)).length)
        else
          -- mismatch: discard only the first byte and continue
          readFrameHeaderGo fuel (rest.drop 7) len (acc + 1)
    else
      readFrameHeaderGo fuel rest len (acc + 1)

/-- read_frame_header from hw_comms_utils.py on a modelled byte stream.
Returns (rx_header, byte_count, out_of_sync_bytes). -/
def read_frame_header (stream : List Nat) (frameHeaderLengthBytes : Nat) :
    Option (List Nat) × Nat × Nat :=
  readFrameHeaderGo (stream.length + 1) stream frameHeaderLengthBytes 0

/-- The result invariant claimed for read_frame_header: a returned header
carries byte_count equal to the requested length and starts with the sync
pattern; a None return carries byte_count 0. -/
def headerResultOk (r : Option (List Nat) × Nat × Nat) (len : Nat) : Prop :=
  match r.1 with
  | some h => r.2.1 = len ∧ h.take 8 = SYNC_PATTERN
  | none => r.2.1 = 0

/-! ### python_code/parsing_utils.py : data model -/

/-- The exceptions parse_cfg and read_to_struct can raise. -/
inductive PyErr where
  | indexError : PyErr
  | valueError : PyErr
  | keyError : String → PyErr
  | zeroDivisionError : PyErr
  | attributeError : String → PyErr
deriving DecidableEq

/-- A Python float, modelled as an exact unnormalized rational (see the
header comment): no claim depends on IEEE rounding or on comparing float
values, only on the dynamic type of a value and on zero tests. -/
structure PyFloat where
  num : Int
  den : Int
deriving DecidableEq

/-- Coercion of a Python int into a float (as in int * float contexts). -/
def PyFloat.ofInt (i : Int) : PyFloat := ⟨i, 1⟩

/-- Float addition. -/
def PyFloat.add (a b : PyFloat) : PyFloat := ⟨a.num * b.den + b.num * a.den, a.den * b.den⟩

/-- Float subtraction. -/
def PyFloat.sub (a b : PyFloat) : PyFloat := ⟨a.num * b.den - b.num * a.den, a.den * b.den⟩

/-- Float multiplication. -/
def PyFloat.mul (a b : PyFloat) : PyFloat := ⟨a.num * b.num, a.den * b.den⟩

/-- Float division; callers first check the divisor against zero, since
Python raises ZeroDivisionError there. -/
def PyFloat.div (a b : PyFloat) : PyFloat := ⟨a.num * b.den, a.den * b.num⟩

/-- Float absolute value. -/
def PyFloat.abs (a : PyFloat) : PyFloat := ⟨|a.num|, |a.den|⟩

/-- A dynamically typed Python number: parse_cfg stores an int in most
fields but a float in numDopplerChirps (true division). -/
inductive PyNum where
  | int : Int → PyNum
  | float : PyFloat → PyNum
deriving DecidableEq

/-- View any Python number as a float (used where Python promotes). -/
def PyNum.toPyFloat : PyNum → PyFloat
  | PyNum.int i => ⟨i, 1⟩
  | PyNum.float f => f

/-- Python true division on numbers: always yields a float, raising
ZeroDivisionError when the divisor is zero. -/
def pyDiv (a b : PyNum) : Except PyErr PyNum :=
  if b.toPyFloat.num = 0 then Except.error PyErr.zeroDivisionError
  else Except.ok (PyNum.float (PyFloat.div a.toPyFloat b.toPyFloat))

/-- Python float division, raising ZeroDivisionError on a zero divisor. -/
def pyDivFloat (a b : PyFloat) : Except PyErr PyFloat :=
  if b.num = 0 then Except.error PyErr.zeroDivisionError
  else Except.ok (PyFloat.div a b)

/-- Python subtraction on numbers: int - int stays int, otherwise float. -/
def pySub (a b : PyNum) : PyNum :=
  match a, b with
  | PyNum.int x, PyNum.int y => PyNum.int (x - y)
  | x, y => PyNum.float (PyFloat.sub x.toPyFloat y.toPyFloat)

/-- Python v.bit_length(): defined on ints (on the absolute value for a
negative int); a float has no such attribute, so Python raises
AttributeError -- the crash at parsing_utils.py line 150. -/
def pyBitLength : PyNum → Except PyErr Nat
  | PyNum.int i => Except.ok (bitLen i.natAbs)
  | PyNum.float _ => Except.error (PyErr.attributeError "bit_length")

/-- parts[i] with Python IndexError semantics. -/
def getPart (parts : List String) (i : Nat) : Except PyErr String :=
  match parts.get? i with
  | some s => Except.ok s
  | none => Except.error PyErr.indexError

/-- Digit-string value; none when some character is not a decimal digit or
the string is empty. -/
def digitsVal? : List Char → Option Nat
  | [] => none
  | cs =>
    if cs.all (fun c => c.isDigit) then
      some (cs.foldl (fun a c => a * 10 + (c.toNat - 48)) 0)
    else none

/-- Python int(s) for the plain sign-and-digits tokens configuration files
use; other tokens raise ValueError as in Python (whose grammar also allows
surrounding whitespace and exponent-free forms not needed here). -/
def pyInt (s : String) : Except PyErr Int :=
  match s.toList with
  | '-' :: cs =>
    match digitsVal? cs with
    | some n => Except.ok (-(n : Int))
    | none => Except.error PyErr.valueError
  | cs =>
    match digitsVal? cs with
    | some n => Except.ok (n : Int)
    | none => Except.error PyErr.valueError

/-- Split a character list at every occurrence of c. -/
def splitOnChar (c : Char) (cs : List Char) : List (List Char) :=
  cs.foldr
    (fun x acc =>
      match acc with
      | a :: rest => if x = c then [] :: a :: rest else (x :: a) :: rest
      | [] => [[x]])
    [[]]

/-- Python float(s) for plain decimal tokens digits[.digits] with optional
leading minus; other tokens raise ValueError (Python also accepts
exponents, inf and nan, which no modelled configuration uses). -/
def pyFloatCore (cs : List Char) : Except PyErr PyFloat :=
  match splitOnChar '.' cs with
  | [a] =>
    match digitsVal? a with
    | some n => Except.ok ⟨(n : Int), 1⟩
    | none => Except.error PyErr.valueError
  | [a, b] =>
    if a.isEmpty && b.isEmpty then Except.error PyErr.valueError
    else
      match (if a.isEmpty then some 0 else digitsVal? a),
            (if b.isEmpty then some 0 else digitsVal? b) with
      | some na, some nb =>
        Except.ok ⟨(na : Int) * (10 : Int) ^ b.length + (nb : Int), (10 : Int) ^ b.length⟩
      | _, _ => Except.error PyErr.valueError
  | _ => Except.error PyErr.valueError

/-- Python float(s); see pyFloatCore. -/
def pyFloat (s : String) : Except PyErr PyFloat :=
  match s.toList with
  | '-' :: cs =>
    match pyFloatCore cs with
    | Except.ok f => Except.ok ⟨-f.num, f.den⟩
    | Except.error e => Except.error e
  | cs => pyFloatCore cs

/-- Whitespace for the line splitter. -/
def isSpaceChar (c : Char) : Bool := c = ' ' || c = '\t'

/-- Python str.split() with no separator: split on whitespace runs,
dropping empty tokens. -/
def splitWSAux : List Char → List Char → List (List Char)
  | [], acc => if acc.isEmpty then [] else [acc.reverse]
  | c :: cs, acc =>
    if isSpaceChar c then
      if acc.isEmpty then splitWSAux cs [] else acc.reverse :: splitWSAux cs []
    else splitWSAux cs (c :: acc)

/-- line.split() from parse_cfg. -/
def pySplit (line : String) : List String :=
  (splitWSAux line.toList []).map (fun cs => String.mk cs)

/-- The channelCfg dict of RadarParams (keys set by the channelCfg branch). -/
structure ChannelCfgDict where
  rxChannelEn : Option Int
  txChannelEn : Option Int
deriving DecidableEq

/-- The chirpComnCfg dict of RadarParams. -/
structure ChirpComnCfgDict where
  digOutputSampRate : Option PyFloat
  numAdcSamples : Option Int
  chirpRampEndTime : Option PyFloat
deriving DecidableEq

/-- The chirpTimingCfg dict of RadarParams. -/
structure ChirpTimingCfgDict where
  idleTime : Option PyFloat
  chirpSlope : Option PyFloat
  startFreq : Option PyFloat
deriving DecidableEq

/-- The guiMonitor dict of RadarParams. -/
structure GuiMonitorDict where
  pointCloud : Option Int
  rangeProfileMask : Option Int
  heatMapMask : Option Int
  statsInfo : Option Int
deriving DecidableEq

/-- The sensorPosition dict of RadarParams. -/
structure SensorPositionDict where
  xOffset : Option PyFloat
  yOffset : Option PyFloat
  zOffset : Option PyFloat
  azimuthTilt : Option PyFloat
  elevationTilt : Option PyFloat
deriving DecidableEq

/-- ProfileCfg dataclass. -/
structure ProfileCfg where
  startFreq : PyFloat
  idleTime : List PyFloat
  rampEndTime : PyFloat
  freqSlopeConst : PyFloat
  numAdcSamples : Int
  digOutSampleRate : PyFloat
deriving DecidableEq

/-- DataPath dataclass; numDopplerChirps is dynamically typed because line
149 of parsing_utils.py assigns it the result of a true division. -/
structure DataPath where
  numTxAnt : Int
  numRxAnt : Int
  numChirpsPerFrame : Int
  numDopplerChirps : PyNum
  numDopplerBins : Int
  numRangeBins : Int
  numValidRangeBins : Int
  rangeResolutionMeters : PyFloat
  rangeIdxToMeters : PyFloat
  dopplerResolutionMps : PyFloat
deriving DecidableEq

/-- FrameCfg dataclass. -/
structure FrameCfg where
  numLoops : Int
  chirpStartIdx : Int
  chirpEndIdx : Int
  framePeriodicity : PyFloat
deriving DecidableEq

/-- RadarParams dataclass. -/
structure RadarParams where
  profileCfg : ProfileCfg
  dataPath : DataPath
  frameCfg : FrameCfg
  channelCfg : ChannelCfgDict
  chirpComnCfg : ChirpComnCfgDict
  chirpTimingCfg : ChirpTimingCfgDict
  trackingCfg : List PyFloat
  guiMonitor : GuiMonitorDict
  sensorPosition : SensorPositionDict
  boundaryBox : List PyFloat
deriving DecidableEq

/-- RadarParams() with the dataclass field defaults (empty dicts, zeros). -/
def initParams : RadarParams :=
  { profileCfg := ⟨⟨0, 1⟩, [⟨0, 1⟩, ⟨0, 1⟩], ⟨0, 1⟩, ⟨0, 1⟩, 0, ⟨0, 1⟩⟩
    dataPath := ⟨0, 0, 0, PyNum.int 0, 0, 0, 0, ⟨0, 1⟩, ⟨0, 1⟩, ⟨0, 1⟩⟩
    frameCfg := ⟨0, 0, 0, ⟨0, 1⟩⟩
    channelCfg := ⟨none, none⟩
    chirpComnCfg := ⟨none, none, none⟩
    chirpTimingCfg := ⟨none, none, none⟩
    trackingCfg := []
    guiMonitor := ⟨none, none, none, none⟩
    sensorPosition := ⟨none, none, none, none, none⟩
    boundaryBox := [] }

/-- Dict lookup with Python KeyError semantics. -/
def dictGet {α : Type} (v : Option α) (key : String) : Except PyErr α :=
  match v with
  | some x => Except.ok x
  | none => Except.error (PyErr.keyError key)

/-- List indexing with Python IndexError semantics. -/
def listGetF (l : List PyFloat) (i : Nat) : Except PyErr PyFloat :=
  match l.get? i with
  | some x => Except.ok x
  | none => Except.error PyErr.indexError

/-! ### python_code/parsing_utils.py : parse_cfg -/

/-- One iteration of the command loop of parse_cfg (lines 87-135): split the
line, dispatch on the command name, convert the positional arguments with
Python int()/float() semantics and store them.  Unknown commands fall
through the elif chain and are ignored. -/
def applyCmd (p : RadarParams) (line : String) : Except PyErr RadarParams := do
  let parts := pySplit line
  let command ← getPart parts 0
  if command = "channelCfg" then do
    let rx ← pyInt (← getPart parts 1)
    let tx ← pyInt (← getPart parts 2)
    Except.ok { p with
      channelCfg := { rxChannelEn := some rx, txChannelEn := some tx }
      dataPath := { p.dataPath with
        numRxAnt := (popcount rx.natAbs : Int)
        numTxAnt := (popcount tx.natAbs : Int) } }
  else if command = "chirpComnCfg" then do
    let t1 ← pyFloat (← getPart parts 1)
    let rate ← pyDivFloat (PyFloat.ofInt 100) t1
    let nAdc ← pyInt (← getPart parts 4)
    let ramp ← pyFloat (← getPart parts 6)
    Except.ok { p with chirpComnCfg :=
      { digOutputSampRate := some rate, numAdcSamples := some nAdc
        chirpRampEndTime := some ramp } }
  else if command = "chirpTimingCfg" then do
    let idle ← pyFloat (← getPart parts 1)
    let slope ← pyFloat (← getPart parts 4)
    let start ← pyFloat (← getPart parts 5)
    Except.ok { p with chirpTimingCfg :=
      { idleTime := some idle, chirpSlope := some slope, startFreq := some start } }
  else if command = "frameCfg" then do
    let chirpStart ← pyInt (← getPart parts 1)
    let chirpEnd ← pyInt (← getPart parts 2)
    let numLoops ← pyInt (← getPart parts 3)
    let fper ← pyFloat (← getPart parts 5)
    Except.ok { p with frameCfg :=
      { numLoops := numLoops, chirpStartIdx := chirpStart
        chirpEndIdx := chirpEnd, framePeriodicity := fper } }
  else if command = "guiMonitor" then do
    let pc ← pyInt (← getPart parts 1)
    let rpm ← pyInt (← getPart parts 2)
    let hmm ← pyInt (← getPart parts 4)
    let si ← pyInt (← getPart parts 6)
    Except.ok { p with guiMonitor :=
      { pointCloud := some pc, rangeProfileMask := some rpm
        heatMapMask := some hmm, statsInfo := some si } }
  else if command = "trackingCfg" then do
    let vs ← (parts.drop 1).mapM pyFloat
    Except.ok { p with trackingCfg := vs }
  else if command = "boundaryBox" then do
    let vs ← (parts.drop 1).mapM pyFloat
    Except.ok { p with boundaryBox := vs }
  else if command = "sensorPosition" then do
    let x ← pyFloat (← getPart parts 1)
    let y ← pyFloat (← getPart parts 2)
    let z ← pyFloat (← getPart parts 3)
    let az ← pyFloat (← getPart parts 4)
    let el ← pyFloat (← getPart parts 5)
    Except.ok { p with sensorPosition :=
      { xOffset := some x, yOffset := some y, zOffset := some z
        azimuthTilt := some az, elevationTilt := some el } }
  else
    Except.ok p

/-- The derived-parameter tail of parse_cfg (lines 140-164), in source
order: profile fields from the dicts (KeyError when a command was absent),
then the chirp/frame derivation, bin counts, and the resolution formulas.
Line 149 is a true division, so numDopplerChirps becomes a float and the
bit_length call on the next line raises AttributeError whenever it is
reached. -/
def deriveParams (p : RadarParams) : Except PyErr RadarParams := do
  let startFreq ← dictGet p.chirpTimingCfg.startFreq "startFreq"
  let idle ← dictGet p.chirpTimingCfg.idleTime "idleTime"
  let ramp ← dictGet p.chirpComnCfg.chirpRampEndTime "chirpRampEndTime"
  let slope ← dictGet p.chirpTimingCfg.chirpSlope "chirpSlope"
  let nAdc ← dictGet p.chirpComnCfg.numAdcSamples "numAdcSamples"
  let rate ← dictGet p.chirpComnCfg.digOutputSampRate "digOutputSampRate"
  let profile : ProfileCfg :=
    { startFreq := startFreq, idleTime := [idle, idle], rampEndTime := ramp
      freqSlopeConst := slope, numAdcSamples := nAdc
      digOutSampleRate := PyFloat.mul (PyFloat.ofInt 1000) rate }
  let numChirpsPerFrame : Int :=
    (p.frameCfg.chirpEndIdx - p.frameCfg.chirpStartIdx + 1) * p.frameCfg.numLoops
  let numDopplerChirps ← pyDiv (PyNum.int numChirpsPerFrame) (PyNum.int p.dataPath.numTxAnt)
  let dopplerBits ← pyBitLength (pySub numDopplerChirps (PyNum.int 1))
  let numDopplerBins : Int := 2 ^ dopplerBits
  let numRangeBins : Int := 2 ^ bitLen (nAdc - 1).natAbs
  let numValidRangeBins : Int := Int.fdiv numRangeBins 2
  let rangeRes ← pyDivFloat
    (PyFloat.mul (PyFloat.mul (PyFloat.ofInt 300000000) profile.digOutSampleRate)
      (PyFloat.ofInt 1000))
    (PyFloat.mul
      (PyFloat.mul (PyFloat.mul (PyFloat.ofInt 2) (PyFloat.abs profile.freqSlopeConst))
        (PyFloat.ofInt 1000000000000))
      (PyFloat.ofInt profile.numAdcSamples))
  let startFreqHz := PyFloat.mul profile.startFreq (PyFloat.ofInt 1000000000)
  let wavelength ← pyDivFloat (PyFloat.ofInt 300000000) startFreqHz
  let idle0 ← listGetF profile.idleTime 0
  let chirpTime := PyFloat.mul (PyFloat.add idle0 profile.rampEndTime) ⟨1, 1000000⟩
  let dopplerRes ← pyDivFloat wavelength
    (PyFloat.mul
      (PyFloat.mul (PyFloat.mul (PyFloat.ofInt 2) numDopplerChirps.toPyFloat) chirpTime)
      (PyFloat.ofInt p.dataPath.numTxAnt))
  Except.ok { p with
    profileCfg := profile
    dataPath := { p.dataPath with
      numChirpsPerFrame := numChirpsPerFrame
      numDopplerChirps := numDopplerChirps
      numDopplerBins := numDopplerBins
      numRangeBins := numRangeBins
      numValidRangeBins := numValidRangeBins
      rangeResolutionMeters := rangeRes
      dopplerResolutionMps := dopplerRes } }

/-- parse_cfg from parsing_utils.py: fold the command loop over the lines,
then run the derived-parameter computations. -/
def parse_cfg (cliCfg : List String) : Except PyErr RadarParams := do
  let p ← cliCfg.foldlM applyCmd initParams
  deriveParams p

/-- The dict keys the derived-parameter section reads before the division
at line 149; when all are present the KeyError paths are skipped. -/
def derivedKeysPresent (p : RadarParams) : Prop :=
  p.chirpTimingCfg.startFreq.isSome = true ∧ p.chirpTimingCfg.idleTime.isSome = true ∧
  p.chirpComnCfg.chirpRampEndTime.isSome = true ∧ p.chirpTimingCfg.chirpSlope.isSome = true ∧
  p.chirpComnCfg.numAdcSamples.isSome = true ∧ p.chirpComnCfg.digOutputSampRate.isSome = true

instance (p : RadarParams) : Decidable (derivedKeysPresent p) := by
  unfold derivedKeysPresent; infer_instance

/-- Decidable equality of Except results, used to evaluate the parser on
concrete configurations. -/
instance {ε α : Type} [DecidableEq ε] [DecidableEq α] : DecidableEq (Except ε α) := fun x y =>
  match x, y with
  | Except.ok a, Except.ok b =>
    match decEq a b with
    | isTrue h => isTrue (by rw [h])
    | isFalse h => isFalse (fun hh => h (Except.ok.inj hh))
  | Except.ok _, Except.error _ => isFalse (fun hh => Except.noConfusion hh)
  | Except.error _, Except.ok _ => isFalse (fun hh => Except.noConfusion hh)
  | Except.error a, Except.error b =>
    match decEq a b with
    | isTrue h => isTrue (by rw [h])
    | isFalse h => isFalse (fun hh => h (Except.error.inj hh))

/-! ### python_code/parsing_utils.py : struct templates -/

/-- The struct-module format characters the frame templates use. -/
inductive FmtChar where
  | b | B | h | H | i | I | q | Q | f | d
deriving DecidableEq

/-- struct.calcsize of a single format character under the standard
little-endian layout (no padding). -/
def fmtSize : FmtChar → Nat
  | FmtChar.b => 1
  | FmtChar.B => 1
  | FmtChar.h => 2
  | FmtChar.H => 2
  | FmtChar.i => 4
  | FmtChar.I => 4
  | FmtChar.q => 8
  | FmtChar.Q => 8
  | FmtChar.f => 4
  | FmtChar.d => 8

/-- A value decoded by struct.unpack.  Integer codes decode to Python ints;
the float codes carry their little-endian byte pattern (IEEE decoding is a
bijection on those bytes and no claim depends on the numeric float value). -/
inductive PyVal where
  | int : Int → PyVal
  | floatBits : List Nat → PyVal
deriving DecidableEq

/-- Little-endian unsigned value of a byte list. -/
def leUnsigned (bytes : List Nat) : Nat :=
  bytes.foldr (fun b acc => b + 256 * acc) 0

/-- Decode one field: unsigned codes little-endian, signed codes via the
twos-complement value, float codes as their byte pattern. -/
def decodeField (c : FmtChar) (bytes : List Nat) : PyVal :=
  match c with
  | FmtChar.B | FmtChar.H | FmtChar.I | FmtChar.Q => PyVal.int (leUnsigned bytes)
  | FmtChar.b | FmtChar.h | FmtChar.i | FmtChar.q =>
    PyVal.int
      (if leUnsigned bytes < 2 ^ (8 * bytes.length - 1) then (leUnsigned bytes : Int)
       else (leUnsigned bytes : Int) - 2 ^ (8 * bytes.length))
  | FmtChar.f | FmtChar.d => PyVal.floatBits bytes

/-- A structure definition template: ordered field entries
(name, format character, declared byte width), the model of the Python
ordered dict of name to (format, width) pairs. -/
abbrev StructDef : Type := List (String × FmtChar × Nat)

/-- get_byte_length_from_struct: the sum of the declared byte widths. -/
def get_byte_length_from_struct (structDef : StructDef) : Nat :=
  (structDef.map (fun e => e.2.2)).sum

/-- struct.calcsize of the format string built by read_to_struct (the
concatenated format characters, little-endian so no padding). -/
def calcsize (structDef : StructDef) : Nat :=
  (structDef.map (fun e => fmtSize e.2.1)).sum

/-- Field-by-field decoding of struct.unpack, consuming fmtSize bytes per
format character, paired with the field names in template order. -/
def unpackGo : List Nat → StructDef → List (String × PyVal)
  | _, [] => []
  | bs, (name, c, _) :: rest =>
    (name, decodeField c (bs.take (fmtSize c))) :: unpackGo (bs.drop (fmtSize c)) rest

/-- read_to_struct: struct.unpack raises struct.error unless the buffer
length equals calcsize of the format string, in which case the values are
returned keyed by the field names; on the error the function returns None. -/
def read_to_struct (byteArray : List Nat) (structDef : StructDef) :
    Option (List (String × PyVal)) :=
  if byteArray.length = calcsize structDef then some (unpackGo byteArray structDef)
  else none

/-! ### main.py : DataLogger -/

/-- State of the DataLogger and its queue: the pending FIFO queue contents,
the is_running flag, the first_frame flag, the frames written so far (in
write order), the file contents written so far, and whether the run loop
has exited (after which the finally block has written the closing bracket).
Frames are identified by naturals; serialization of a frame is an arbitrary
function supplied to the model. -/
structure LoggerState where
  queue : List Nat
  running : Bool
  firstFrame : Bool
  out : List Nat
  file : String
  done : Bool
deriving DecidableEq

/-- The state right after DataLogger.run opened the file and wrote the
opening bracket: empty queue, is_running True, first_frame True. -/
def initLogger : LoggerState := ⟨[], true, true, [], "[", false⟩

/-- An interleaving event: a producer add_data call, the stop call, or one
pass of the logger loop (a queue.get with timeout that either dequeues one
frame or observes an empty queue). -/
inductive LoggerEvent where
  | add : Nat → LoggerEvent
  | stop : LoggerEvent
  | poll : LoggerEvent
deriving DecidableEq

/-- One interleaved step.  add appends to the FIFO queue (queue.put);
stop clears is_running; poll runs one iteration of the while loop of
DataLogger.run: if the loop already exited nothing happens; while
(is_running or queue non-empty) a dequeue writes the separating comma
(unless first) and the serialized frame; when the guard fails the loop
exits and the finally block writes the closing bracket. -/
def loggerStep (ser : Nat → String) (s : LoggerState) (e : LoggerEvent) : LoggerState :=
  match e with
  | LoggerEvent.add f => { s with queue := s.queue ++ [f] }
  | LoggerEvent.stop => { s with running := false }
  | LoggerEvent.poll =>
    if s.done then s
    else if s.running || !s.queue.isEmpty then
      match s.queue with
      | [] => s
      | f :: q =>
        { s with queue := q
                 file := s.file ++ (if s.firstFrame then "" else ",") ++ ser f
                 firstFrame := false
                 out := s.out ++ [f] }
    else { s with done := true, file := s.file ++ "]" }

/-- Run the logger model over a whole interleaving. -/
def runLogger (ser : Nat → String) (evs : List LoggerEvent) : LoggerState :=
  evs.foldl (loggerStep ser) initLogger

/-- The frames enqueued by an interleaving, in order. -/
def enqueuedOf (evs : List LoggerEvent) : List Nat :=
  evs.filterMap (fun e => match e with | LoggerEvent.add f => some f | _ => none)

/-- Comma-separated concatenation, the body the logger writes between the
array brackets. -/
def commaJoin : List String → String
  | [] => ""
  | [x] => x
  | x :: y :: xs => x ++ "," ++ commaJoin (y :: xs)

/-- The file/flag invariant of the logger loop: first_frame tracks whether
nothing has been written yet; while the loop runs the file is the opening
bracket plus the comma-joined serialized frames written so far; once the
loop has exited the closing bracket follows and the queue was empty. -/
def loggerFileInv (ser : Nat → String) (s : LoggerState) : Prop :=
  s.firstFrame = s.out.isEmpty
  ∧ (s.done = false → s.file = "[" ++ commaJoin (s.out.map ser))
  ∧ (s.done = true → s.file = "[" ++ commaJoin (s.out.map ser) ++ "]" ∧ s.queue = [])

/-! ### Concrete inputs used by the claims -/

/-- The configuration of claim C3, with the exact frameCfg line the claim
quotes (the token ignored sits at parts[5], which the code feeds to
float()). -/
def cfgC3 : List String :=
  ["channelCfg 15 3", "chirpComnCfg 8 0 0 0 256 0 40",
   "chirpTimingCfg 6 0 0 0 60 77", "frameCfg 0 15 4 0 ignored 100"]

/-- The same configuration with a numeric framePeriodicity at parts[5], so
that the command loop succeeds and execution reaches the derived
computations. -/
def cfgC3fixed : List String :=
  ["channelCfg 15 3", "chirpComnCfg 8 0 0 0 256 0 40",
   "chirpTimingCfg 6 0 0 0 60 77", "frameCfg 0 15 4 0 100"]

/-- A well-formed configuration (numTxAnt = 3) used for claim C7. -/
def cfgC7 : List String :=
  ["channelCfg 15 7", "chirpComnCfg 8 0 0 0 128 0 36",
   "chirpTimingCfg 7 0 0 0 55 60", "frameCfg 0 8 4 0 250"]

/-- A configuration whose channelCfg tx mask is 0 and whose other commands
supply every dict key the derivation reads before the division. -/
def cfgC4 : List String :=
  ["channelCfg 15 0", "chirpComnCfg 8 0 0 0 256 0 40",
   "chirpTimingCfg 6 0 0 0 60 77", "frameCfg 0 15 4 0 100"]

/-- A configuration whose channelCfg tx mask is 0 but which omits the
chirpTimingCfg command, so the derivation fails earlier with KeyError. -/
def cfgC4missing : List String := ["channelCfg 1 0"]

/-- The RadarParams state after the command loop of parse_cfg over cfgC4
(the loop succeeds on that input). -/
def paramsC4 : RadarParams :=
  match cfgC4.foldlM applyCmd initParams with
  | Except.ok p => p
  | Except.error _ => initParams

/-- The RadarParams state after the command loop of parse_cfg over
cfgC4missing (that loop succeeds; the KeyError comes later). -/
def paramsC4missing : RadarParams :=
  match cfgC4missing.foldlM applyCmd initParams with
  | Except.ok p => p
  | Except.error _ => initParams

/-- The sync pattern occurs in s exactly at offset k (and at no other
offset). -/
def syncOnceAt (s : List Nat) (k : Nat) : Prop :=
  (s.drop k).take 8 = SYNC_PATTERN ∧
  ∀ j < s.length, (s.drop j).take 8 = SYNC_PATTERN → j = k

instance (s : List Nat) (k : Nat) : Decidable (syncOnceAt s k) := by
  unfold syncOnceAt; infer_instance

/-- The stream of the C1 counterexample: a single extra 0x02 byte in front
of the pattern, which the block read of the scanner swallows. -/
def c1stream : List Nat := [2, 2, 1, 4, 3, 6, 5, 8, 7]

/-! ### Scanner lemmas -/

/-- Every result of the scanner loop satisfies the header/byte-count
invariant, whatever the fuel. -/
theorem readFrameHeaderGo_ok (fuel : Nat) : ∀ (s : List Nat) (len acc : Nat),
    headerResultOk (readFrameHeaderGo fuel s len acc) len := by
  induction fuel with
  | zero => intro s len acc; simp [readFrameHeaderGo, headerResultOk]
  | succ n ih =>
    intro s len acc
    cases s with
    | nil => simp [readFrameHeaderGo, headerResultOk]
    | cons b rest =>
      simp only [readFrameHeaderGo]
      split
      · split
        · exact ih _ _ _
        · split
          · split
            · rename_i hb hshort hpat hlen
              simp only [headerResultOk]
              refine ⟨trivial, ?_⟩
              rw [hpat]
              exact List.take_left' rfl
            · exact ih _ _ _
          · exact ih _ _ _
      · exact ih _ _ _

/-- The scanner finds the pattern and returns the full header when the
bytes before the pattern contain no 0x02 false start. -/
theorem readFrameHeaderGo_finds (len : Nat) (rest : List Nat)
    (hrest : len - 8 ≤ rest.length) :
    ∀ (junk : List Nat) (fuel acc : Nat), junk.length < fuel → (∀ b ∈ junk, b ≠ 2) →
    readFrameHeaderGo fuel (junk ++ SYNC_PATTERN ++ rest) len acc
      = (some (SYNC_PATTERN ++ rest.take (len - 8)), len, acc + junk.length) := by
  intro junk
  induction junk with
  | nil =>
    intro fuel acc hfuel hj
    match fuel, hfuel with
    | f + 1, _ =>
      have h1 : (([1, 4, 3, 6, 5, 8, 7] : List Nat) ++ rest).take 7 = [1, 4, 3, 6, 5, 8, 7] :=
        List.take_left' rfl
      have h2 : (([1, 4, 3, 6, 5, 8, 7] : List Nat) ++ rest).drop 7 = rest :=
        List.drop_left' rfl
      have h3 : (rest.take (len - 8)).length = len - 8 := by
        rw [List.length_take]; omega
      show readFrameHeaderGo (f + 1) (2 :: ([1, 4, 3, 6, 5, 8, 7] ++ rest)) len acc = _
      simp only [readFrameHeaderGo, h1, h2, h3, SYNC_PATTERN]
      simp
  | cons j js ihj =>
    intro fuel acc hfuel hj
    match fuel, hfuel with
    | f + 1, hf =>
      have hj2 : ¬ (j = 2) := hj j (List.mem_cons_self j js)
      have hlt : js.length < f := by
        simp only [List.length_cons] at hf; omega
      show readFrameHeaderGo (f + 1) (j :: (js ++ SYNC_PATTERN ++ rest)) len acc = _
      simp only [readFrameHeaderGo, if_neg hj2]
      rw [ihj f (acc + 1) hlt (fun b hb => hj b (List.mem_cons_of_mem j hb))]
      simp only [List.length_cons]
      refine congrArg _ (congrArg _ ?_)
      omega

/-- C10: whenever read_frame_header returns a non-None header, the returned
byte_count equals frame_header_length_bytes and the first 8 header bytes
are exactly the sync pattern 02 01 04 03 06 05 08 07; whenever it returns
None, the returned byte_count is 0. -/
theorem readFrameHeader_result_invariant (s : List Nat) (len : Nat) :
    headerResultOk (read_frame_header s len) len :=
  readFrameHeaderGo_ok (s.length + 1) s len 0

/-- C1 counterexample: the stream 02 02 01 04 03 06 05 08 07 contains the
sync pattern exactly once, at offset 1, followed by headerLength - 8 = 0
further bytes for headerLength 8; yet read_frame_header misses it (the
7-byte block read consumes part of the pattern after the false 0x02 start)
and returns None with 2 discarded bytes, not a header with
out_of_sync_bytes = 1. -/
theorem readFrameHeader_missedOverlap_cex :
    syncOnceAt c1stream 1 ∧ 1 + 8 + (8 - 8) ≤ c1stream.length ∧
    read_frame_header c1stream 8 = (none, 0, 2) ∧
    ¬ ((read_frame_header c1stream 8).1 ≠ none ∧ (read_frame_header c1stream 8).2.2 = 1) := by
  decide

/-- C1 (amended): when the k bytes before the sync pattern contain no 0x02
byte, headerLength is at least 8, and at least headerLength - 8 bytes
follow the pattern, read_frame_header returns the header consisting of the
pattern and the next headerLength - 8 bytes, with byte_count = headerLength
and out_of_sync_bytes = k; the header has length headerLength. -/
theorem readFrameHeader_cleanJunk_findsHeader (junk rest : List Nat) (len : Nat)
    (hjunk : ∀ b ∈ junk, b ≠ 2) (hlen : 8 ≤ len) (hrest : len - 8 ≤ rest.length) :
    read_frame_header (junk ++ SYNC_PATTERN ++ rest) len
      = (some (SYNC_PATTERN ++ rest.take (len - 8)), len, junk.length)
    ∧ (SYNC_PATTERN ++ rest.take (len - 8)).length = len := by
  constructor
  · have hfuel : junk.length < (junk ++ SYNC_PATTERN ++ rest).length + 1 := by
      simp [List.length_append]
      omega
    have h := readFrameHeaderGo_finds len rest hrest junk
      ((junk ++ SYNC_PATTERN ++ rest).length + 1) 0 hfuel hjunk
    simpa [read_frame_header] using h
  · simp only [List.length_append, List.length_take, SYNC_PATTERN]
    simp only [List.length_cons, List.length_nil]
    omega

/-- Witness for C1: one junk byte 0x03, headerLength 9, one body byte. -/
theorem readFrameHeader_cleanJunk_findsHeader_witness :
    read_frame_header ([3] ++ SYNC_PATTERN ++ [9]) 9
      = (some (SYNC_PATTERN ++ ([9] : List Nat).take (9 - 8)), 9, ([3] : List Nat).length)
    ∧ (SYNC_PATTERN ++ ([9] : List Nat).take (9 - 8)).length = 9 :=
  readFrameHeader_cleanJunk_findsHeader [3] [9] 9 (by decide) (by decide) (by decide)

/-- C2 counterexample: on the stream consisting of the single byte 0x02 the
7-byte pattern read returns zero bytes (timeout) while the discarded count
is still 0, but the call does not abort there: it adds one discarded byte
and only returns None at the next one-byte read, with out_of_sync_bytes = 1
rather than the 0 accumulated when the zero-byte read happened. -/
theorem readFrameHeader_shortPatternRead_cex :
    read_frame_header [2] 40 = (none, 0, 1) ∧ read_frame_header [2] 40 ≠ (none, 0, 0) := by
  decide

/-- C2 (amended): only the one-byte search read aborts the call on a
zero-byte return, yielding None, byte_count 0 and the count accumulated so
far; a zero-byte (more generally short) return of the 7-byte pattern read
adds 1 + bytes-read to the count and resumes searching, and a short
header-remainder read adds 8 + bytes-read and resumes searching, None being
returned only by a later one-byte read. -/
theorem readFrameHeader_timeout_behavior :
    (∀ (fuel len acc : Nat), readFrameHeaderGo (fuel + 1) [] len acc = (none, 0, acc))
    ∧ (∀ (fuel len acc : Nat) (rest : List Nat), rest.length < 7 →
        readFrameHeaderGo (fuel + 1) (2 :: rest) len acc
          = readFrameHeaderGo fuel [] len (acc + 1 + rest.length))
    ∧ (∀ (fuel len acc : Nat) (rest : List Nat), 8 ≤ len → rest.length < len - 8 →
        readFrameHeaderGo (fuel + 1) (SYNC_PATTERN ++ rest) len acc
          = readFrameHeaderGo fuel [] len (acc + 8 + rest.length)) := by
  refine ⟨fun fuel len acc => rfl, ?_, ?_⟩
  · intro fuel len acc rest hlt
    have ht : rest.take 7 = rest := List.take_of_length_le (by omega)
    have hd : rest.drop 7 = [] := List.drop_eq_nil_of_le (by omega)
    simp only [readFrameHeaderGo, ht, hd, if_pos rfl]
    simp [hlt]
  · intro fuel len acc rest hlen hlt
    have h1 : (([1, 4, 3, 6, 5, 8, 7] : List Nat) ++ rest).take 7 = [1, 4, 3, 6, 5, 8, 7] :=
      List.take_left' rfl
    have h2 : (([1, 4, 3, 6, 5, 8, 7] : List Nat) ++ rest).drop 7 = rest :=
      List.drop_left' rfl
    have ht : rest.take (len - 8) = rest := List.take_of_length_le (by omega)
    have hd : rest.drop (len - 8) = [] := List.drop_eq_nil_of_le (by omega)
    show readFrameHeaderGo (fuel + 1) (2 :: ([1, 4, 3, 6, 5, 8, 7] ++ rest)) len acc = _
    simp only [readFrameHeaderGo, h1, h2, ht, hd, SYNC_PATTERN]
    have hne : ¬ (rest.length = len - 8) := by omega
    simp [hne]

/-- Witness for C2: the three branches at concrete streams. -/
theorem readFrameHeader_timeout_behavior_witness :
    readFrameHeaderGo 1 [] 16 3 = (none, 0, 3)
    ∧ readFrameHeaderGo 2 [2, 9] 16 0 = readFrameHeaderGo 1 [] 16 (0 + 1 + ([9] : List Nat).length)
    ∧ readFrameHeaderGo 2 (SYNC_PATTERN ++ [9]) 10 0
        = readFrameHeaderGo 1 [] 10 (0 + 8 + ([9] : List Nat).length) :=
  ⟨readFrameHeader_timeout_behavior.1 0 16 3,
   readFrameHeader_timeout_behavior.2.1 1 16 0 [9] (by decide),
   readFrameHeader_timeout_behavior.2.2 1 10 0 [9] (by decide) (by decide)⟩

/-- C5: when the first byte matches 0x02, the 7 following bytes are all
read back, and the assembled 8 bytes differ from the sync pattern, exactly
one byte is added to the discarded count and the scan resumes after the 7
trailing bytes, which are dropped without being re-scanned. -/
theorem readFrameHeader_mismatch_discardsOne (fuel len acc : Nat) (rest : List Nat)
    (h7 : 7 ≤ rest.length) (hmm : 2 :: rest.take 7 ≠ SYNC_PATTERN) :
    readFrameHeaderGo (fuel + 1) (2 :: rest) len acc
      = readFrameHeaderGo fuel (rest.drop 7) len (acc + 1) := by
  have hl : (rest.take 7).length = 7 := by rw [List.length_take]; omega
  simp only [readFrameHeaderGo, hl, if_pos rfl]
  simp [hmm]

/-- Witness for C5: a false start followed by seven non-pattern bytes. -/
theorem readFrameHeader_mismatch_discardsOne_witness :
    readFrameHeaderGo 2 (2 :: [9, 9, 9, 9, 9, 9, 9]) 40 0
      = readFrameHeaderGo 1 (([9, 9, 9, 9, 9, 9, 9] : List Nat).drop 7) 40 (0 + 1) :=
  readFrameHeader_mismatch_discardsOne 1 40 0 [9, 9, 9, 9, 9, 9, 9] (by decide) (by decide)

/-! ### Power-of-two lemmas -/

/-- bit_length characterization: bitLenAux fuel n is at most j exactly when
n < 2^j, provided the fuel covers n. -/
theorem bitLenAux_le_iff (fuel : Nat) : ∀ (n j : Nat), n ≤ fuel →
    (bitLenAux fuel n ≤ j ↔ n < 2 ^ j) := by
  induction fuel with
  | zero =>
    intro n j hn
    match n, hn with
    | 0, _ => simp [bitLenAux, Nat.pos_pow_of_pos j]
  | succ f ih =>
    intro n j hn
    match n with
    | 0 => simp [bitLenAux, Nat.pos_pow_of_pos j]
    | m + 1 =>
      cases j with
      | zero => simp [bitLenAux, Nat.lt_one_iff]
      | succ k =>
        have hh : (m + 1) / 2 ≤ f := by omega
        have hiff := ih ((m + 1) / 2) k hh
        simp only [bitLenAux, Nat.succ_le_succ_iff, hiff, pow_succ]
        omega

/-- bit_length characterization at the canonical fuel. -/
theorem bitLen_le_iff (n j : Nat) : bitLen n ≤ j ↔ n < 2 ^ j :=
  bitLenAux_le_iff n n j (Nat.le_refl n)

/-- The doubling loop of pow2_roundup started at 2^k computes the smallest
power of two at least x, provided the fuel suffices and every smaller
power is below x. -/
theorem pow2Go_spec (fuel : Nat) : ∀ (x : Int) (k : Nat),
    x ≤ ((2 : Int) ^ (k + fuel)) → (∀ j, j < k → ((2 : Int) ^ j) < x) →
    ∃ K : Nat, pow2Go fuel x (2 ^ k) = 2 ^ K ∧ x ≤ ((2 : Int) ^ K) ∧
      ∀ j : Nat, x ≤ ((2 : Int) ^ j) → K ≤ j := by
  induction fuel with
  | zero =>
    intro x k hbound hprev
    refine ⟨k, rfl, by simpa using hbound, fun j hj => ?_⟩
    by_contra hlt
    exact absurd hj (not_le.mpr (hprev j (by omega)))
  | succ f ih =>
    intro x k hbound hprev
    simp only [pow2Go]
    by_cases hguard : ((2 ^ k : Nat) : Int) < x
    · rw [if_pos hguard]
      have hk1 : (2 ^ k) * 2 = 2 ^ (k + 1) := by rw [pow_succ]
      rw [hk1]
      have hb : x ≤ ((2 : Int) ^ ((k + 1) + f)) := by
        have : (k + 1) + f = k + (f + 1) := by omega
        rw [this]; exact hbound
      refine ih x (k + 1) hb ?_
      intro j hj
      rcases Nat.lt_or_ge j k with hjk | hjk
      · exact hprev j hjk
      · have : j = k := by omega
        subst this
        simpa using hguard
    · rw [if_neg hguard]
      have hxk : x ≤ ((2 : Int) ^ k) := by
        push_cast at hguard
        omega
      refine ⟨k, rfl, hxk, fun j hj => ?_⟩
      by_contra hlt
      exact absurd hj (not_le.mpr (hprev j (by omega)))

/-- pow2_roundup computes the smallest power of two at least x. -/
theorem pow2_roundup_spec (x : Int) :
    ∃ K : Nat, pow2_roundup x = 2 ^ K ∧ x ≤ ((2 : Int) ^ K) ∧
      ∀ j : Nat, x ≤ ((2 : Int) ^ j) → K ≤ j := by
  have hbound : x ≤ ((2 : Int) ^ (0 + (x.toNat + 1))) := by
    have h1 : x ≤ (x.toNat : Int) := Int.self_le_toNat x
    have h2 : x.toNat < 2 ^ x.toNat := Nat.lt_two_pow x.toNat
    have h3 : (2 : Nat) ^ x.toNat ≤ 2 ^ (x.toNat + 1) :=
      Nat.pow_le_pow_right (by omega) (by omega)
    have h4 : ((2 ^ x.toNat : Nat) : Int) ≤ ((2 ^ (x.toNat + 1) : Nat) : Int) := by
      exact_mod_cast h3
    have h5 : (x.toNat : Int) ≤ ((2 ^ x.toNat : Nat) : Int) := by exact_mod_cast h2.le
    calc x ≤ (x.toNat : Int) := h1
      _ ≤ ((2 ^ x.toNat : Nat) : Int) := h5
      _ ≤ ((2 ^ (x.toNat + 1) : Nat) : Int) := h4
      _ = (2 : Int) ^ (0 + (x.toNat + 1)) := by push_cast; ring_nf
  have h := pow2Go_spec (x.toNat + 1) x 0 hbound (fun j hj => absurd hj (Nat.not_lt_zero j))
  simpa [pow2_roundup] using h

/-- C6 counterexample: the inline computation 1 << (x - 1).bit_length()
returns 2 at x = 0 (Python (-1).bit_length() is 1), not the 1 the claim
requires for every x <= 1. -/
theorem inlinePow2_zero_cex : inlinePow2 0 = 2 ∧ ¬ inlinePow2 0 = 1 := by decide

/-- C6 (amended): pow2_roundup returns the smallest power of two at least
x for every integer x, and 1 for every x <= 1 (in particular 1 at 0 and 1,
and 8 at 5); the inline bit_length computation of parse_cfg agrees with
pow2_roundup for every x >= 1 but returns 2 at x = 0. -/
theorem nextPow2_correct_amended :
    (∀ x : Int, ∃ K : Nat, pow2_roundup x = 2 ^ K ∧ x ≤ ((2 : Int) ^ K) ∧
      ∀ j : Nat, x ≤ ((2 : Int) ^ j) → K ≤ j)
    ∧ (∀ x : Int, x ≤ 1 → pow2_roundup x = 1)
    ∧ pow2_roundup 0 = 1 ∧ pow2_roundup 1 = 1 ∧ pow2_roundup 5 = 8
    ∧ (∀ x : Int, 1 ≤ x → inlinePow2 x = (pow2_roundup x : Int))
    ∧ inlinePow2 0 = 2 := by
  refine ⟨pow2_roundup_spec, ?_, by decide, by decide, by decide, ?_, by decide⟩
  · intro x hx
    obtain ⟨K, h1, h2, h3⟩ := pow2_roundup_spec x
    have hK0 : K ≤ 0 := h3 0 (by simpa using hx)
    have : K = 0 := by omega
    subst this
    simpa using h1
  · intro x hx
    obtain ⟨K, h1, h2, h3⟩ := pow2_roundup_spec x
    have habs : (x - 1).natAbs = (x - 1).toNat := by omega
    have hcastK : ((2 : Int) ^ K) = ((2 ^ K : Nat) : Int) := by push_cast; ring
    have hmK : (x - 1).toNat < 2 ^ K := by
      rw [hcastK] at h2; omega
    have hK1 : bitLen (x - 1).toNat ≤ K := (bitLen_le_iff (x - 1).toNat K).mpr hmK
    have hmb : (x - 1).toNat < 2 ^ bitLen (x - 1).toNat :=
      (bitLen_le_iff (x - 1).toNat (bitLen (x - 1).toNat)).mp (Nat.le_refl _)
    have hcastb : ((2 ^ bitLen (x - 1).toNat : Nat) : Int)
        = (2 : Int) ^ bitLen (x - 1).toNat := by push_cast; ring
    have hK2 : K ≤ bitLen (x - 1).toNat := by
      refine h3 (bitLen (x - 1).toNat) ?_
      rw [← hcastb]
      omega
    have hKb : bitLen (x - 1).toNat = K := Nat.le_antisymm hK1 hK2
    show (2 : Int) ^ bitLen (x - 1).natAbs = _
    rw [habs, hKb, h1]
    push_cast
    ring

/-- Witness for C6: the hypothesis-bearing conjuncts at x = -5 and x = 3. -/
theorem nextPow2_correct_amended_witness :
    pow2_roundup (-5) = 1 ∧ inlinePow2 3 = (pow2_roundup 3 : Int) :=
  ⟨nextPow2_correct_amended.2.1 (-5) (by decide),
   nextPow2_correct_amended.2.2.2.2.2.1 3 (by decide)⟩

/-! ### parse_cfg claim theorems -/

/-- C3: on the exact claimed command list parse_cfg raises ValueError,
because the frameCfg line places the token ignored at parts[5], which the
code feeds to float(); with a numeric framePeriodicity at parts[5] the
command loop succeeds and the run instead raises AttributeError at the
numDopplerBins line, since the true division at line 149 made
numDopplerChirps a float and floats have no bit_length.  The claimed
successful result (numChirpsPerFrame 64, numDopplerChirps 32,
numDopplerBins 32) is unreachable on this code. -/
theorem parse_cfg_frameCfg_crash :
    parse_cfg cfgC3 = Except.error PyErr.valueError
    ∧ parse_cfg cfgC3fixed = Except.error (PyErr.attributeError "bit_length") := by
  constructor
  · decide
  · decide

/-- C7: parse_cfg can never return a RadarParams: every run that reaches
the derived computations raises (here AttributeError on the float
bit_length at the numDopplerBins line, on a well-formed configuration with
numTxAnt = 3), so no successful call exists whose determinism could be
observed. -/
theorem parse_cfg_never_succeeds_cfgC7 :
    parse_cfg cfgC7 = Except.error (PyErr.attributeError "bit_length") := by decide

/-- C4 counterexample: a command list whose channelCfg tx mask is 0 but
which omits chirpTimingCfg fails with KeyError (missing command), not with
the division-by-zero error the claim names. -/
theorem parse_cfg_zeroTx_missingKeys_cex :
    parse_cfg cfgC4missing = Except.error (PyErr.keyError "startFreq")
    ∧ parse_cfg cfgC4missing ≠ Except.error PyErr.zeroDivisionError
    ∧ cfgC4missing.foldlM applyCmd initParams = Except.ok paramsC4missing
    ∧ paramsC4missing.dataPath.numTxAnt = 0 := by
  refine ⟨by decide, by decide, rfl, by decide⟩

/-- C4 (amended): for every command list on which the command loop
succeeds, which supplies the six dict keys read by the derivation before
the division, and whose tx-channel mask has zero set bits, parse_cfg fails
with ZeroDivisionError before returning any RadarParams (when a needed
command is missing it fails even earlier, with KeyError, as the
counterexample shows; in neither case is any incomplete configuration
returned). -/
theorem parse_cfg_zeroTxAnt_divisionByZero (cfg : List String) (p : RadarParams)
    (hrun : cfg.foldlM applyCmd initParams = Except.ok p)
    (hkeys : derivedKeysPresent p)
    (htx : p.dataPath.numTxAnt = 0) :
    parse_cfg cfg = Except.error PyErr.zeroDivisionError := by
  obtain ⟨k1, k2, k3, k4, k5, k6⟩ := hkeys
  rcases Option.isSome_iff_exists.mp k1 with ⟨v1, hv1⟩
  rcases Option.isSome_iff_exists.mp k2 with ⟨v2, hv2⟩
  rcases Option.isSome_iff_exists.mp k3 with ⟨v3, hv3⟩
  rcases Option.isSome_iff_exists.mp k4 with ⟨v4, hv4⟩
  rcases Option.isSome_iff_exists.mp k5 with ⟨v5, hv5⟩
  rcases Option.isSome_iff_exists.mp k6 with ⟨v6, hv6⟩
  show (cfg.foldlM applyCmd initParams >>= fun q => deriveParams q)
      = Except.error PyErr.zeroDivisionError
  rw [hrun]
  show deriveParams p = Except.error PyErr.zeroDivisionError
  simp only [deriveParams, dictGet, hv1, hv2, hv3, hv4, hv5, hv6, htx, pyDiv,
    PyNum.toPyFloat, bind, Except.bind]
  simp

/-- Witness for C4: the zero-tx configuration cfgC4. -/
theorem parse_cfg_zeroTxAnt_divisionByZero_witness :
    parse_cfg cfgC4 = Except.error PyErr.zeroDivisionError :=
  parse_cfg_zeroTxAnt_divisionByZero cfgC4 paramsC4 rfl (by decide) (by decide)

/-! ### Struct template theorems -/

/-- When every declared width agrees with the format character size, the
calcsize of the generated format string is the declared total. -/
theorem calcsize_eq_declared : ∀ (sd : StructDef),
    (∀ e ∈ sd, fmtSize e.2.1 = e.2.2) →
    calcsize sd = get_byte_length_from_struct sd := by
  intro sd
  induction sd with
  | nil => intro _; rfl
  | cons e rest ih =>
    intro h
    simp only [calcsize, get_byte_length_from_struct, List.map_cons, List.sum_cons] at ih ⊢
    rw [h e (List.mem_cons_self e rest), ih (fun x hx => h x (List.mem_cons_of_mem e hx))]

/-- C9: for a template whose format codes have struct sizes equal to the
declared byte widths, get_byte_length_from_struct is the total the decoder
checks against, and read_to_struct returns a named-value mapping exactly
when the buffer length equals that total, returning None on every other
length. -/
theorem struct_template_decode_ok (sd : StructDef) (buf : List Nat)
    (h : ∀ e ∈ sd, fmtSize e.2.1 = e.2.2) :
    get_byte_length_from_struct sd = calcsize sd
    ∧ ((read_to_struct buf sd).isSome ↔ buf.length = get_byte_length_from_struct sd)
    ∧ (buf.length ≠ get_byte_length_from_struct sd → read_to_struct buf sd = none) := by
  have hc := calcsize_eq_declared sd h
  refine ⟨hc.symm, ?_, ?_⟩
  · by_cases hb : buf.length = get_byte_length_from_struct sd
    · simp [read_to_struct, hc, hb]
    · simp [read_to_struct, hc, hb]
  · intro hb
    simp [read_to_struct, hc, hb]

/-- Witness for C9: a two-field template (a 4-byte I and an 8-byte Q) and a
12-byte buffer. -/
theorem struct_template_decode_ok_witness :
    get_byte_length_from_struct [("frameNumber", FmtChar.I, 4), ("magic", FmtChar.Q, 8)]
      = calcsize [("frameNumber", FmtChar.I, 4), ("magic", FmtChar.Q, 8)]
    ∧ ((read_to_struct [1, 0, 0, 0, 2, 0, 0, 0, 0, 0, 0, 0]
          [("frameNumber", FmtChar.I, 4), ("magic", FmtChar.Q, 8)]).isSome
        ↔ ([1, 0, 0, 0, 2, 0, 0, 0, 0, 0, 0, 0] : List Nat).length
            = get_byte_length_from_struct
                [("frameNumber", FmtChar.I, 4), ("magic", FmtChar.Q, 8)])
    ∧ (([1, 0, 0, 0, 2, 0, 0, 0, 0, 0, 0, 0] : List Nat).length
          ≠ get_byte_length_from_struct [("frameNumber", FmtChar.I, 4), ("magic", FmtChar.Q, 8)]
        → read_to_struct [1, 0, 0, 0, 2, 0, 0, 0, 0, 0, 0, 0]
            [("frameNumber", FmtChar.I, 4), ("magic", FmtChar.Q, 8)] = none) :=
  struct_template_decode_ok _ _ (by decide)

/-! ### DataLogger lemmas -/

/-- Appending one element to the comma-joined body inserts a comma exactly
when the body was non-empty, which is what the first_frame flag tracks. -/
theorem commaJoin_append_singleton : ∀ (l : List String) (x : String),
    commaJoin (l ++ [x]) = commaJoin l ++ (if l.isEmpty then "" else ",") ++ x := by
  intro l
  induction l with
  | nil => intro x; simp [commaJoin]
  | cons a rest ih =>
    intro x
    cases rest with
    | nil => simp [commaJoin, String.append_assoc]
    | cons b rs =>
      show a ++ "," ++ commaJoin ((b :: rs) ++ [x]) = _
      rw [ih x]
      simp [commaJoin, String.append_assoc]

/-- A poll after the loop has exited does nothing. -/
theorem loggerStep_poll_done (ser : Nat → String) (s : LoggerState) (h1 : s.done = true) :
    loggerStep ser s LoggerEvent.poll = s := by
  simp [loggerStep, h1]

/-- A poll on an empty queue while running observes queue.Empty and loops. -/
theorem loggerStep_poll_idle (ser : Nat → String) (s : LoggerState) (h1 : s.done = false)
    (h2 : s.queue = []) (h3 : s.running = true) :
    loggerStep ser s LoggerEvent.poll = s := by
  simp [loggerStep, h1, h2, h3]

/-- A poll with the stop flag observed and the queue empty exits the loop
and writes the closing bracket. -/
theorem loggerStep_poll_exit (ser : Nat → String) (s : LoggerState) (h1 : s.done = false)
    (h2 : s.queue = []) (h3 : s.running = false) :
    loggerStep ser s LoggerEvent.poll = { s with done := true, file := s.file ++ "]" } := by
  simp [loggerStep, h1, h2, h3]

/-- A poll on a non-empty queue dequeues the front frame and writes it,
preceded by a comma unless it is the first. -/
theorem loggerStep_poll_pop (ser : Nat → String) (s : LoggerState) (f : Nat) (q : List Nat)
    (h1 : s.done = false) (h2 : s.queue = f :: q) :
    loggerStep ser s LoggerEvent.poll
      = { s with queue := q, firstFrame := false, out := s.out ++ [f],
                 file := s.file ++ (if s.firstFrame then "" else ",") ++ ser f } := by
  simp [loggerStep, h1, h2]

/-- Frames are conserved: after any interleaving, the written frames
followed by the still-queued frames are the initial ones followed by all
frames enqueued during the interleaving, in order. -/
theorem loggerRun_conservation (ser : Nat → String) : ∀ (evs : List LoggerEvent) (s : LoggerState),
    (evs.foldl (loggerStep ser) s).out ++ (evs.foldl (loggerStep ser) s).queue
      = s.out ++ s.queue ++ enqueuedOf evs := by
  intro evs
  induction evs with
  | nil => intro s; simp [enqueuedOf]
  | cons e rest ih =>
    intro s
    rw [List.foldl_cons, ih (loggerStep ser s e)]
    cases e with
    | add f => simp [loggerStep, enqueuedOf]
    | stop => simp [loggerStep, enqueuedOf]
    | poll =>
      simp only [enqueuedOf, List.filterMap_cons]
      rcases Bool.eq_false_or_eq_true s.done with hd | hd
      · rw [loggerStep_poll_done ser s hd]
      · cases hq : s.queue with
        | nil =>
          rcases Bool.eq_false_or_eq_true s.running with hr | hr
          · rw [loggerStep_poll_idle ser s hd hq hr]
            simp [hq, enqueuedOf]
          · rw [loggerStep_poll_exit ser s hd hq hr]
            simp [hq, enqueuedOf]
        | cons f q =>
          rw [loggerStep_poll_pop ser s f q hd hq]
          simp [hq, enqueuedOf]

/-- One step preserves the file/flag invariant, provided a frame is only
enqueued while the loop is still running (add_data before the shutdown
completed). -/
theorem loggerFileInv_step (ser : Nat → String) (s : LoggerState) (e : LoggerEvent)
    (hinv : loggerFileInv ser s)
    (hadd : ∀ f, e = LoggerEvent.add f → s.done = false) :
    loggerFileInv ser (loggerStep ser s e) := by
  obtain ⟨h1, h2, h3⟩ := hinv
  cases e with
  | add f =>
    have hd : s.done = false := hadd f rfl
    refine ⟨h1, fun _ => h2 hd, fun hc => ?_⟩
    rw [show (loggerStep ser s (LoggerEvent.add f)).done = s.done from rfl, hd] at hc
    exact absurd hc (by simp)
  | stop => exact ⟨h1, h2, h3⟩
  | poll =>
    rcases Bool.eq_false_or_eq_true s.done with hd | hd
    · rw [loggerStep_poll_done ser s hd]
      exact ⟨h1, h2, h3⟩
    · cases hq : s.queue with
      | nil =>
        rcases Bool.eq_false_or_eq_true s.running with hr | hr
        · rw [loggerStep_poll_idle ser s hd hq hr]
          exact ⟨h1, h2, h3⟩
        · rw [loggerStep_poll_exit ser s hd hq hr]
          refine ⟨h1, fun hc => absurd hc (by simp), fun _ => ⟨?_, by simp [hq]⟩⟩
          show s.file ++ "]" = _
          rw [h2 hd]
      | cons f q =>
        rw [loggerStep_poll_pop ser s f q hd hq]
        have hie : (List.map ser s.out).isEmpty = s.out.isEmpty := by
          cases s.out <;> simp
        refine ⟨by simp, fun _ => ?_, fun hc => absurd hc (by simp [hd])⟩
        show s.file ++ (if s.firstFrame = true then "" else ",") ++ ser f = _
        rw [h2 hd, h1]
        show _ = "[" ++ commaJoin (List.map ser (s.out ++ [f]))
        rw [List.map_append, List.map_cons, List.map_nil, commaJoin_append_singleton, hie]
        simp [String.append_assoc]

/-- A non-stop step taken while the loop runs keeps is_running set and the
loop alive. -/
theorem loggerStep_nonstop_preserve (ser : Nat → String) (s : LoggerState) (e : LoggerEvent)
    (hne : e ≠ LoggerEvent.stop) (hr : s.running = true) (hd : s.done = false) :
    (loggerStep ser s e).running = true ∧ (loggerStep ser s e).done = false := by
  cases e with
  | add f => exact ⟨hr, hd⟩
  | stop => exact absurd rfl hne
  | poll =>
    cases hq : s.queue with
    | nil =>
      rw [loggerStep_poll_idle ser s hd hq hr]
      exact ⟨hr, hd⟩
    | cons f q =>
      rw [loggerStep_poll_pop ser s f q hd hq]
      exact ⟨hr, hd⟩

/-- Before stop() is called the loop keeps running, does not exit, and the
file invariant is maintained. -/
theorem loggerRun_preStop (ser : Nat → String) : ∀ (evs : List LoggerEvent) (s : LoggerState),
    LoggerEvent.stop ∉ evs → s.running = true → s.done = false → loggerFileInv ser s →
    (evs.foldl (loggerStep ser) s).running = true
    ∧ (evs.foldl (loggerStep ser) s).done = false
    ∧ loggerFileInv ser (evs.foldl (loggerStep ser) s) := by
  intro evs
  induction evs with
  | nil => intro s _ hr hd hinv; exact ⟨hr, hd, hinv⟩
  | cons e rest ih =>
    intro s hni hr hd hinv
    have hne : e ≠ LoggerEvent.stop := fun hh => hni (by rw [hh]; exact List.mem_cons_self _ _)
    have hrest : LoggerEvent.stop ∉ rest := fun hh => hni (List.mem_cons_of_mem e hh)
    have hstep := loggerStep_nonstop_preserve ser s e hne hr hd
    have hstepinv := loggerFileInv_step ser s e hinv (fun _ _ => hd)
    rw [List.foldl_cons]
    exact ih (loggerStep ser s e) hrest hstep.1 hstep.2 hstepinv

/-- After stop, a drain phase consisting only of loop passes maintains the
file invariant. -/
theorem loggerRun_polls (ser : Nat → String) : ∀ (evs : List LoggerEvent) (s : LoggerState),
    (∀ e ∈ evs, e = LoggerEvent.poll) → loggerFileInv ser s →
    loggerFileInv ser (evs.foldl (loggerStep ser) s) := by
  intro evs
  induction evs with
  | nil => intro s _ hinv; exact hinv
  | cons e rest ih =>
    intro s hall hinv
    have he : e = LoggerEvent.poll := hall e (List.mem_cons_self e rest)
    have hstepinv := loggerFileInv_step ser s e hinv
      (fun f hf => by rw [he] at hf; cases hf)
    rw [List.foldl_cons]
    exact ih (loggerStep ser s e) (fun x hx => hall x (List.mem_cons_of_mem e hx)) hstepinv

/-- C8: for every interleaving in which all frames are enqueued before
stop() (no stop event in the producer phase, only loop passes after it)
and the run loop exits cleanly (done), the loop has exited only with an
empty queue (it never terminates while the queue is non-empty), the frames
written are exactly the enqueued ones, each once and in FIFO order, and the
file is the bracketed comma-joined array of their serializations -- a
syntactically valid JSON array whenever each serialized frame is valid
JSON. -/
theorem dataLogger_flushes_all_frames (ser : Nat → String) (pre post : List LoggerEvent)
    (hpre : LoggerEvent.stop ∉ pre)
    (hpost : ∀ e ∈ post, e = LoggerEvent.poll)
    (hdone : (runLogger ser (pre ++ LoggerEvent.stop :: post)).done = true) :
    (runLogger ser (pre ++ LoggerEvent.stop :: post)).queue = []
    ∧ (runLogger ser (pre ++ LoggerEvent.stop :: post)).out
        = enqueuedOf (pre ++ LoggerEvent.stop :: post)
    ∧ (runLogger ser (pre ++ LoggerEvent.stop :: post)).file
        = "[" ++ commaJoin ((enqueuedOf (pre ++ LoggerEvent.stop :: post)).map ser) ++ "]" := by
  have hsplit : runLogger ser (pre ++ LoggerEvent.stop :: post)
      = post.foldl (loggerStep ser)
          (loggerStep ser (pre.foldl (loggerStep ser) initLogger) LoggerEvent.stop) := by
    simp [runLogger, List.foldl_append]
  have hcons : (runLogger ser (pre ++ LoggerEvent.stop :: post)).out
      ++ (runLogger ser (pre ++ LoggerEvent.stop :: post)).queue
      = enqueuedOf (pre ++ LoggerEvent.stop :: post) := by
    have h := loggerRun_conservation ser (pre ++ LoggerEvent.stop :: post) initLogger
    simpa [runLogger, initLogger] using h
  have hinv0 : loggerFileInv ser initLogger :=
    ⟨rfl, fun _ => rfl, fun hc => by simp [initLogger] at hc⟩
  have hpre' := loggerRun_preStop ser pre initLogger hpre rfl rfl hinv0
  have hinv1 := loggerFileInv_step ser (pre.foldl (loggerStep ser) initLogger)
    LoggerEvent.stop hpre'.2.2 (fun f hf => by cases hf)
  have hinv2 := loggerRun_polls ser post
    (loggerStep ser (pre.foldl (loggerStep ser) initLogger) LoggerEvent.stop) hpost hinv1
  rw [hsplit] at hdone hcons ⊢
  obtain ⟨hfile, hqueue⟩ := hinv2.2.2 hdone
  rw [hqueue, List.append_nil] at hcons
  exact ⟨hqueue, hcons, by rw [hfile, hcons]⟩

/-- Witness for C8: two frames enqueued, stop, three loop passes; the
final file is the two-element JSON array. -/
theorem dataLogger_flushes_all_frames_witness :
    (runLogger (fun n => toString n)
        ([LoggerEvent.add 1, LoggerEvent.add 2] ++ LoggerEvent.stop
          :: [LoggerEvent.poll, LoggerEvent.poll, LoggerEvent.poll])).queue = []
    ∧ (runLogger (fun n => toString n)
        ([LoggerEvent.add 1, LoggerEvent.add 2] ++ LoggerEvent.stop
          :: [LoggerEvent.poll, LoggerEvent.poll, LoggerEvent.poll])).out
        = enqueuedOf ([LoggerEvent.add 1, LoggerEvent.add 2] ++ LoggerEvent.stop
          :: [LoggerEvent.poll, LoggerEvent.poll, LoggerEvent.poll])
    ∧ (runLogger (fun n => toString n)
        ([LoggerEvent.add 1, LoggerEvent.add 2] ++ LoggerEvent.stop
          :: [LoggerEvent.poll, LoggerEvent.poll, LoggerEvent.poll])).file
        = "[" ++ commaJoin ((enqueuedOf ([LoggerEvent.add 1, LoggerEvent.add 2]
            ++ LoggerEvent.stop
            :: [LoggerEvent.poll, LoggerEvent.poll, LoggerEvent.poll])).map
              (fun n => toString n)) ++ "]" :=
  dataLogger_flushes_all_frames (fun n => toString n)
    [LoggerEvent.add 1, LoggerEvent.add 2]
    [LoggerEvent.poll, LoggerEvent.poll, LoggerEvent.poll]
    (by decide) (by decide) (by decide)
